import Mathlib

/-!
Verification of the simulation engine of the `relatives` repository against
its natural-language specification.  The definitions below are shallow
embeddings of the repository's code: hex-grid spatial model and neighbor
lookup (frontend `App.jsx`), the structure requirement table and
affordability checks (`StructureBuilder.jsx`), the Space-Port structure,
travel-cost and travel-validation logic (the Space-Port service code in the
repository's implementation plan), the long-distance destination list
(`LongDistanceMove.jsx`), and the deposit dialog guards
(`ResourceDepositDialog.jsx`).  Backend commit steps that are not present in
the repository sources (the movement commit, the construction commit, the
Factory cooldown, the autonomous-unit tick) are modelled from the spec and
marked as such in their doc comments.
-/

namespace Relatives

/-- A hex space: identifier plus axial coordinates, as exposed by the
backend and consumed by the frontend (`space.id`, `space.q`, `space.r`). -/
structure Space where
  id : String
  q : Int
  r : Int
deriving DecidableEq

/-- The six axial hex direction offsets, from `App.jsx`:
`[1,0],[1,-1],[0,-1],[-1,0],[-1,1],[0,1]`. -/
def HEX_DIRECTIONS : List (Int × Int) :=
  [(1, 0), (1, -1), (0, -1), (-1, 0), (-1, 1), (0, 1)]

/-- Offset for a direction index, as in `HEX_DIRECTIONS[facingIndex]`. -/
def hexOffset (d : Fin 6) : Int × Int :=
  HEX_DIRECTIONS.getD d.val (0, 0)

/-- Neighbor lookup from `App.jsx` `handleKeyDown`: compute the target axial
coordinate from the current space and the facing direction, then search the
current body's spaces for a space with exactly that coordinate
(`currentBody.spaces.find(s => s.q === targetQ && s.r === targetR)`). -/
def neighbor (bodySpaces : List Space) (current : Space) (d : Fin 6) : Option Space :=
  bodySpaces.find? fun s =>
    s.q == current.q + (hexOffset d).1 && s.r == current.r + (hexOffset d).2

/-- A celestial body: identifier plus its ordered list of spaces. -/
structure Body where
  id : String
  spaces : List Space
deriving DecidableEq

/-- Fuel cost of Space-Port network travel, from the Space-Port plan code:
`SPACE_PORT_TRAVEL_COST = 2` (a single module-level constant). -/
def SPACE_PORT_TRAVEL_COST : Nat := 2

/-- Fuel cost of regular inter-body travel (`INTER_BODY_FUEL_COST`, the
`5` of `isReachable` in `App.jsx` and of the movement-options payload). -/
def INTER_BODY_FUEL_COST : Nat := 5

/-- The `SpacePort` dataclass from the Space-Port plan code: a structure
with an identifier, a location space, and an `is_operational` flag.  It has
no per-instance travel-cost field and no network identifier field. -/
structure SpacePort where
  id : String
  location_space_id : String
  is_operational : Bool
deriving DecidableEq

/-- `SpacePort.get_travel_cost`: the global constant when operational,
`None` otherwise. -/
def get_travel_cost (p : SpacePort) : Option Nat :=
  if p.is_operational then some SPACE_PORT_TRAVEL_COST else none

/-- `SpacePort.can_connect_to`: both ports operational; nothing else. -/
def can_connect_to (p other_port : SpacePort) : Bool :=
  p.is_operational && other_port.is_operational

/-- `SpacePortService.find_space_port_at_space`: first port located at the
given space. -/
def find_space_port_at_space (ports : List SpacePort) (space_id : String) : Option SpacePort :=
  ports.find? fun p => p.location_space_id == space_id

/-- `SpacePortService.get_accessible_space_ports`: ports whose location is
in the unit's accessible-space set and which are operational. -/
def get_accessible_space_ports (ports : List SpacePort) (accessible_spaces : List String) :
    List SpacePort :=
  ports.filter fun p => decide (p.location_space_id ∈ accessible_spaces) && p.is_operational

/-- `SpacePortService.validate_space_port_travel`: checks, in order, an
operational port at the origin, an operational port at the destination,
accessibility of the destination port, and fuel against the global travel
cost.  Returns the `(bool, message)` pair of the source. -/
def validate_space_port_travel (ports : List SpacePort) (accessible_spaces : List String)
    (current_fuel : Nat) (from_space_id to_space_id : String) : Bool × String :=
  match find_space_port_at_space ports from_space_id with
  | none => (false, "No operational Space Port at origin")
  | some origin_port =>
    if !origin_port.is_operational then
      (false, "No operational Space Port at origin")
    else
      match find_space_port_at_space ports to_space_id with
      | none => (false, "No operational Space Port at destination")
      | some dest_port =>
        if !dest_port.is_operational then
          (false, "No operational Space Port at destination")
        else if dest_port ∈ get_accessible_space_ports ports accessible_spaces then
          if current_fuel < SPACE_PORT_TRAVEL_COST then
            (false, "Insufficient fuel (need " ++ toString SPACE_PORT_TRAVEL_COST ++
              ", have " ++ toString current_fuel ++ ")")
          else
            (true, "Space Port travel valid")
        else
          (false, "Destination Space Port not accessible")

end Relatives

namespace Relatives

/-- C6: the six hex direction offsets, indexed 0 through 5, are exactly the
sequence (+1,0), (+1,-1), (0,-1), (-1,0), (-1,1), (0,1); for every space at
(q, r) and direction d, a successful neighbor lookup returns a space of the
same body at (q + dq, r + dr), and the lookup returns none exactly when no
space of the body has that coordinate (so such a local move is rejected). -/
theorem hex_directions_neighbor_spec :
    HEX_DIRECTIONS = [(1, 0), (1, -1), (0, -1), (-1, 0), (-1, 1), (0, 1)] ∧
    (∀ (bodySpaces : List Space) (current : Space) (d : Fin 6) (s : Space),
      neighbor bodySpaces current d = some s →
        s ∈ bodySpaces ∧ s.q = current.q + (hexOffset d).1 ∧
          s.r = current.r + (hexOffset d).2) ∧
    (∀ (bodySpaces : List Space) (current : Space) (d : Fin 6),
      neighbor bodySpaces current d = none →
        ∀ s ∈ bodySpaces,
          ¬(s.q = current.q + (hexOffset d).1 ∧ s.r = current.r + (hexOffset d).2)) := by
  refine ⟨rfl, ?_, ?_⟩
  · intro bodySpaces current d s h
    refine ⟨List.mem_of_find?_eq_some h, ?_⟩
    have hp := List.find?_some h
    simp only [Bool.and_eq_true, beq_iff_eq] at hp
    exact hp
  · intro bodySpaces current d h s hs hqr
    rw [neighbor, List.find?_eq_none] at h
    have := h s hs
    simp only [Bool.and_eq_true, beq_iff_eq, not_and] at this
    exact this hqr.1 hqr.2

/-- Witness for C6: on a concrete one-space body, the neighbor lookup in
direction 0 from the origin finds the space at (1, 0), and the theorem's
conclusions hold for it. -/
theorem hex_directions_neighbor_spec_witness :
    (⟨"b", 1, 0⟩ : Space) ∈ [(⟨"b", 1, 0⟩ : Space)] ∧
      (⟨"b", 1, 0⟩ : Space).q = (⟨"a", 0, 0⟩ : Space).q + (hexOffset 0).1 ∧
      (⟨"b", 1, 0⟩ : Space).r = (⟨"a", 0, 0⟩ : Space).r + (hexOffset 0).2 :=
  hex_directions_neighbor_spec.2.1 [⟨"b", 1, 0⟩] ⟨"a", 0, 0⟩ 0 ⟨"b", 1, 0⟩ rfl

end Relatives

namespace Relatives

/-- C4 counterexample: the claim that two SpacePort instances in the same
game may carry different travel costs is false for the code: `SpacePort`
has no travel-cost field, and `get_travel_cost` returns the single global
constant for every operational port, so no two operational ports can ever
differ in travel cost. -/
theorem space_port_cost_not_per_instance :
    ¬ ∃ p q : SpacePort, p.is_operational = true ∧ q.is_operational = true ∧
      get_travel_cost p ≠ get_travel_cost q := by
  rintro ⟨p, q, hp, hq, hne⟩
  simp [get_travel_cost, hp, hq] at hne

/-- C4 (amended): the fuel cost of Space-Port travel is the single global
constant `SPACE_PORT_TRAVEL_COST = 2`; every operational SpacePort reports
exactly this cost, so all operational ports share one cost. -/
theorem space_port_cost_global (p : SpacePort) (h : p.is_operational = true) :
    get_travel_cost p = some SPACE_PORT_TRAVEL_COST ∧ SPACE_PORT_TRAVEL_COST = 2 ∧
      ∀ q : SpacePort, q.is_operational = true → get_travel_cost q = get_travel_cost p := by
  refine ⟨by simp [get_travel_cost, h], rfl, ?_⟩
  intro q hq
  simp [get_travel_cost, h, hq]

/-- Witness for C4's amended theorem at a concrete operational port. -/
theorem space_port_cost_global_witness :
    get_travel_cost ⟨"p1", "a", true⟩ = some SPACE_PORT_TRAVEL_COST :=
  (space_port_cost_global ⟨"p1", "a", true⟩ rfl).1

/-- C5 counterexample: two operational SpacePort structures, both
accessible to the unit — the configuration for which the claim (Scenario F,
with network identifiers "default" and "advanced") demands a NetworkMismatch
failure — validate successfully: `validate_space_port_travel` performs no
network check at all, and the `SpacePort` type carries no network
identifier that could make it fail. -/
theorem validate_space_port_travel_no_network_gate :
    (⟨"port_a", "space_a", true⟩ : SpacePort).is_operational = true ∧
    (⟨"port_b", "space_b", true⟩ : SpacePort).is_operational = true ∧
    validate_space_port_travel
      [⟨"port_a", "space_a", true⟩, ⟨"port_b", "space_b", true⟩]
      ["space_a", "space_b"] 2 "space_a" "space_b" =
      (true, "Space Port travel valid") := by
  refine ⟨rfl, rfl, ?_⟩
  rfl

/-- C5 (amended): Space-Port travel validation has no network condition:
it succeeds exactly when an operational SpacePort sits at the origin space,
an operational SpacePort accessible to the unit sits at the destination
space, and the unit's fuel is at least the global travel cost.  Its failure
messages are the four of the source; no NetworkMismatch failure exists. -/
theorem validate_space_port_travel_success_iff (ports : List SpacePort)
    (accessible_spaces : List String) (current_fuel : Nat) (f t : String) :
    (validate_space_port_travel ports accessible_spaces current_fuel f t).1 = true ↔
      (∃ o, find_space_port_at_space ports f = some o ∧ o.is_operational = true) ∧
      (∃ d, find_space_port_at_space ports t = some d ∧ d.is_operational = true ∧
        d ∈ get_accessible_space_ports ports accessible_spaces) ∧
      SPACE_PORT_TRAVEL_COST ≤ current_fuel := by
  unfold validate_space_port_travel
  cases hf : find_space_port_at_space ports f with
  | none => simp [hf]
  | some o =>
    cases ho : o.is_operational with
    | false => simp [ho]
    | true =>
      cases ht : find_space_port_at_space ports t with
      | none => simp [ho, ht]
      | some d =>
        cases hd : d.is_operational with
        | false => simp [ho, hd]
        | true =>
          by_cases hmem : d ∈ get_accessible_space_ports ports accessible_spaces
          · by_cases hfuel : current_fuel < SPACE_PORT_TRAVEL_COST
            · simp [ho, hd, hmem, hfuel]
              try omega
            · simp [ho, hd, hmem, hfuel]
              try omega
          · simp [ho, hd, hmem]

end Relatives

namespace Relatives

/-- Fuel cost of a direct move, from `isReachable` in `App.jsx`:
`const cost = currentBody.id === targetBody.id ? 1 : 5`. -/
def directMoveCost (currentBodyId targetBodyId : String) : Nat :=
  if currentBodyId == targetBodyId then 1 else 5

/-- `isReachable` from `App.jsx`: `return fuelAvailable >= cost`. -/
def isReachable (currentBodyId targetBodyId : String) (fuelAvailable : Nat) : Bool :=
  decide (directMoveCost currentBodyId targetBodyId ≤ fuelAvailable)

/-- Required fuel in `_handle_direct_movement` of the movement-service code:
the global Space-Port cost when the move validates as Space-Port travel,
otherwise the regular inter-body cost. -/
def required_fuel_direct (is_space_port_travel : Bool) : Nat :=
  if is_space_port_travel then SPACE_PORT_TRAVEL_COST else INTER_BODY_FUEL_COST

/-- The mutable state of a moving unit: fuel, current space, explored set. -/
structure MoveUnit where
  fuel : Nat
  current_space_id : String
  explored_spaces : List String
deriving DecidableEq

/-- Outcome of a move request. -/
inductive MoveResult where
  | moved
  | insufficientFuel
deriving DecidableEq

/-- Modelled from the spec: the backend MovementService commit step is not
in src (only its cost and validation logic are).  Per the spec, a move
commits only if available fuel is at least the required cost; on success the
cost is subtracted from the unit's fuel, the current Space reference
updates, and the destination is added to the explored set; on failure
(InsufficientFuel) no state changes. -/
def resolveMove (u : MoveUnit) (cost : Nat) (dest : String) : MoveResult × MoveUnit :=
  if cost ≤ u.fuel then
    (.moved,
      { fuel := u.fuel - cost
        current_space_id := dest
        explored_spaces :=
          if dest ∈ u.explored_spaces then u.explored_spaces
          else u.explored_spaces ++ [dest] })
  else
    (.insufficientFuel, u)

/-- `systemAccessibleSpaces` from `MapView.jsx`: the identifier of the first
space of every body that has spaces. -/
def systemAccessibleSpaces (bodies : List Body) : List String :=
  bodies.filterMap fun body => body.spaces.head?.map fun s => s.id

/-- Modelled from the spec: the backend accessibility accessor
(`get_all_accessible_spaces_for_unit`) is not in src.  Per the spec the
Movement Resolver's accessibility predicate for any non-local travel mode is
membership in the union of the unit's explored set and the system-accessible
first spaces; the union itself appears in `MapView.jsx` (`exploredSpaces`). -/
def accessibleSpaces (u : MoveUnit) (bodies : List Body) : List String :=
  u.explored_spaces ++ systemAccessibleSpaces bodies

/-- Accessibility predicate over `accessibleSpaces`. -/
def isAccessible (u : MoveUnit) (bodies : List Body) (space_id : String) : Bool :=
  decide (space_id ∈ accessibleSpaces u bodies)

end Relatives

namespace Relatives

/-- C1: a move commits only when available fuel is at least the required
cost (1 for a local same-body move, 5 for the default inter-body move); on
success exactly the cost is subtracted and the current space updates; on
failure the result is InsufficientFuel, the unit state is completely
unchanged, and repeating the rejected call yields the identical outcome. -/
theorem move_fuel_gated_atomic (u : MoveUnit) (cost : Nat) (dest : String) :
    ((resolveMove u cost dest).1 = .moved ↔ cost ≤ u.fuel) ∧
    (cost ≤ u.fuel →
      resolveMove u cost dest =
        (.moved,
          { fuel := u.fuel - cost
            current_space_id := dest
            explored_spaces :=
              if dest ∈ u.explored_spaces then u.explored_spaces
              else u.explored_spaces ++ [dest] })) ∧
    (u.fuel < cost →
      resolveMove u cost dest = (.insufficientFuel, u) ∧
      resolveMove (resolveMove u cost dest).2 cost dest = resolveMove u cost dest) ∧
    (∀ currentBodyId targetBodyId : String,
      directMoveCost currentBodyId targetBodyId =
        if currentBodyId = targetBodyId then 1 else 5) ∧
    (∀ (cb tb : String) (fuelAvailable : Nat),
      isReachable cb tb fuelAvailable = true ↔ directMoveCost cb tb ≤ fuelAvailable) := by
  refine ⟨?_, ?_, ?_, ?_, ?_⟩
  · by_cases h : cost ≤ u.fuel <;> simp [resolveMove, h]
    try omega
  · intro h
    simp [resolveMove, h]
  · intro h
    have h' : ¬ cost ≤ u.fuel := by omega
    constructor <;> simp [resolveMove, h']
  · intro cb tb
    simp [directMoveCost, beq_iff_eq]
  · intro cb tb fuelAvailable
    simp [isReachable]

/-- Witness for C1 at Scenario B's numbers: a unit with fuel 4 attempting a
cost-5 inter-body move is rejected with InsufficientFuel, keeps fuel 4 and
all state, and a repeat of the rejected call yields the identical result. -/
theorem move_fuel_gated_atomic_witness :
    resolveMove ⟨4, "a", []⟩ 5 "x" = (.insufficientFuel, ⟨4, "a", []⟩) ∧
    resolveMove (resolveMove ⟨4, "a", []⟩ 5 "x").2 5 "x" = resolveMove ⟨4, "a", []⟩ 5 "x" :=
  (move_fuel_gated_atomic ⟨4, "a", []⟩ 5 "x").2.2.1 (by decide)

/-- C2: the explored set only grows across the move operation (the one
operation that writes it); every body's first space is accessible to every
unit regardless of exploration; and the accessibility predicate for
non-local travel is exactly membership in the union of the unit's explored
set and the system-accessible first spaces. -/
theorem exploration_monotone_and_accessibility (u : MoveUnit) (bodies : List Body) :
    (∀ (cost : Nat) (dest s : String),
      s ∈ u.explored_spaces → s ∈ (resolveMove u cost dest).2.explored_spaces) ∧
    (∀ body ∈ bodies, ∀ sp, body.spaces.head? = some sp →
      isAccessible u bodies sp.id = true) ∧
    (∀ space_id, isAccessible u bodies space_id = true ↔
      space_id ∈ u.explored_spaces ∨ space_id ∈ systemAccessibleSpaces bodies) := by
  refine ⟨?_, ?_, ?_⟩
  · intro cost dest s hs
    by_cases h : cost ≤ u.fuel
    · simp only [resolveMove, if_pos h]
      by_cases hd : dest ∈ u.explored_spaces
      · simpa [hd] using hs
      · simp [hd, List.mem_append]
        exact Or.inl hs
    · simpa [resolveMove, if_neg h] using hs
  · intro body hb sp hsp
    have hmem : sp.id ∈ systemAccessibleSpaces bodies := by
      simp only [systemAccessibleSpaces, List.mem_filterMap]
      exact ⟨body, hb, by simp [hsp]⟩
    simp [isAccessible, accessibleSpaces, List.mem_append, hmem]
  · intro space_id
    simp [isAccessible, accessibleSpaces, List.mem_append]

/-- Witness for C2: in a concrete one-body world, the body's first space is
accessible to a unit that has explored nothing. -/
theorem exploration_monotone_and_accessibility_witness :
    isAccessible ⟨0, "a", []⟩ [⟨"B1", [⟨"s1", 0, 0⟩]⟩] "s1" = true :=
  (exploration_monotone_and_accessibility ⟨0, "a", []⟩ [⟨"B1", [⟨"s1", 0, 0⟩]⟩]).2.1
    ⟨"B1", [⟨"s1", 0, 0⟩]⟩ (by simp) ⟨"s1", 0, 0⟩ rfl

end Relatives

namespace Relatives

/-- `STRUCTURE_REQUIREMENTS` from `StructureBuilder.jsx` (also in the game
config): the fixed structure-type → resource-cost table. -/
def STRUCTURE_REQUIREMENTS : List (String × List (String × Nat)) :=
  [("Collector", [("Silver", 2), ("Ore", 1)]),
   ("Factory", [("Algae", 2), ("SpaceDust", 3)]),
   ("Settlement", [("Fungus", 4)]),
   ("FuelPump", [("Ore", 2), ("Crystal", 1)]),
   ("Scanner", [("Ore", 1), ("Silicon", 1)]),
   ("SpacePort", [("Silicon", 3), ("Crystal", 2), ("Ore", 2), ("SpaceDust", 1)])]

/-- `canAfford` from `StructureBuilder.jsx`: every listed resource is held
in at least the required count (missing keys count as 0, here the default
of the inventory function). -/
def canAfford (playerInventory : String → Nat) (requirements : List (String × Nat)) : Bool :=
  requirements.all fun p => decide (p.2 ≤ playerInventory p.1)

/-- `getMissingResources` from `StructureBuilder.jsx`: for each listed
resource below its requirement, the "resource (shortfall)" string. -/
def getMissingResources (playerInventory : String → Nat)
    (requirements : List (String × Nat)) : List String :=
  requirements.filterMap fun p =>
    if playerInventory p.1 < p.2 then
      some (p.1 ++ " (" ++ toString (p.2 - playerInventory p.1) ++ ")")
    else
      none

/-- One payment step: subtract a single requirement from the inventory. -/
def payStep (acc : String → Nat) (p : String × Nat) : String → Nat :=
  fun r => if r = p.1 then acc r - p.2 else acc r

/-- Payment of a full requirement list against an inventory. -/
def payCost (inventory : String → Nat) (requirements : List (String × Nat)) : String → Nat :=
  requirements.foldl payStep inventory

/-- The state of a building unit: its owning player, inventory, current
space, and explored-space set (the unit-side half of the §4.3 accessible
set). -/
structure BuildUnitState where
  owner_player_id : String
  inventory : String → Nat
  current_space_id : String
  explored_spaces : List String

/-- A structure instantiated by a successful build. -/
structure PlacedStructure where
  structure_type : String
  space_id : String
deriving DecidableEq

/-- Construction failure kinds of the spec's build operation. -/
inductive BuildError where
  | permissionDenied
  | invalidLocation
  | invalidStructureType
  | insufficientResources (missing : List String)
deriving DecidableEq

/-- Modelled from the spec: the backend Construction Engine commit
(BuildingService) is not in src, only its requirement table and
affordability/shortfall checks are.  Per §4.4, build validates in order:
the acting Player has permission (owns the unit, PermissionDenied
otherwise); the target Space is within the unit's accessible set — the
explored set united with the system-accessible first spaces of §4.3
(InvalidLocation otherwise); the structure type is a key of the fixed
requirement table (InvalidStructureType otherwise); and the inventory holds
at least the required count of every listed resource (InsufficientResources
with the per-resource shortfall otherwise).  Only if all checks pass it
atomically decrements each required resource by its exact amount and
instantiates the Structure at the unit's current Space; on any failure
nothing changes. -/
def buildStructure (acting_player_id : String) (u : BuildUnitState)
    (bodies : List Body) (structure_type : String) :
    Except BuildError PlacedStructure × BuildUnitState :=
  if acting_player_id = u.owner_player_id then
    if u.current_space_id ∈ u.explored_spaces ++ systemAccessibleSpaces bodies then
      match STRUCTURE_REQUIREMENTS.find? (fun p => p.1 == structure_type) with
      | none => (.error .invalidStructureType, u)
      | some entry =>
        if canAfford u.inventory entry.2 then
          (.ok ⟨structure_type, u.current_space_id⟩,
            { u with inventory := payCost u.inventory entry.2 })
        else
          (.error (.insufficientResources (getMissingResources u.inventory entry.2)), u)
    else
      (.error .invalidLocation, u)
  else
    (.error .permissionDenied, u)

theorem payCost_eq_of_not_mem (inventory : String → Nat)
    (requirements : List (String × Nat)) (r : String)
    (h : r ∉ requirements.map Prod.fst) : payCost inventory requirements r = inventory r := by
  induction requirements generalizing inventory with
  | nil => rfl
  | cons p rest ih =>
    simp only [List.map_cons, List.mem_cons, not_or] at h
    have hstep : payStep inventory p r = inventory r := by
      simp [payStep, h.1]
    calc payCost inventory (p :: rest) r = payCost (payStep inventory p) rest r := rfl
      _ = payStep inventory p r := ih (payStep inventory p) h.2
      _ = inventory r := hstep

theorem payCost_eq_of_mem (inventory : String → Nat)
    (requirements : List (String × Nat)) (r : String) (n : Nat)
    (hnd : (requirements.map Prod.fst).Nodup) (hm : (r, n) ∈ requirements) :
    payCost inventory requirements r = inventory r - n := by
  induction requirements generalizing inventory with
  | nil => cases hm
  | cons p rest ih =>
    simp only [List.map_cons, List.nodup_cons] at hnd
    rcases List.mem_cons.mp hm with heq | hrest
    · have hkey : r = p.1 := by rw [← heq]
      have hval : n = p.2 := by rw [← heq]
      have hnot : r ∉ rest.map Prod.fst := by
        rw [hkey]; exact hnd.1
      calc payCost inventory (p :: rest) r = payCost (payStep inventory p) rest r := rfl
        _ = payStep inventory p r := payCost_eq_of_not_mem _ rest r hnot
        _ = inventory r - n := by simp [payStep, hkey, hval]
    · have hkey : r ≠ p.1 := by
        intro hc
        exact hnd.1 (hc ▸ (List.mem_map.mpr ⟨(r, n), hrest, rfl⟩))
      have hstep : payStep inventory p r = inventory r := by
        simp [payStep, hkey]
      calc payCost inventory (p :: rest) r = payCost (payStep inventory p) rest r := rfl
        _ = payStep inventory p r - n := ih (payStep inventory p) hnd.2 hrest
        _ = inventory r - n := by rw [hstep]

theorem structure_requirements_keys_nodup :
    ∀ entry ∈ STRUCTURE_REQUIREMENTS, (entry.2.map Prod.fst).Nodup := by
  decide

end Relatives

namespace Relatives

/-- C3 counterexample: affordability alone does not imply build success in
the specified build operation: a unit holding exactly the Collector
requirement (Silver 2, Ore 1) is rejected with PermissionDenied when the
acting player does not own it, and with InvalidLocation when its current
space is outside its accessible set, and in the permission case its
inventory is untouched — refuting the claim's "succeeds if and only if the
inventory holds at least the required count". -/
theorem build_affordability_not_sufficient :
    canAfford (fun r => if r = "Silver" then 2 else if r = "Ore" then 1 else 0)
      [("Silver", 2), ("Ore", 1)] = true ∧
    (buildStructure "player_2"
      ⟨"player_1", fun r => if r = "Silver" then 2 else if r = "Ore" then 1 else 0,
        "s0", ["s0"]⟩ [] "Collector").1 = .error .permissionDenied ∧
    (buildStructure "player_1"
      ⟨"player_1", fun r => if r = "Silver" then 2 else if r = "Ore" then 1 else 0,
        "s0", []⟩ [] "Collector").1 = .error .invalidLocation ∧
    (buildStructure "player_2"
      ⟨"player_1", fun r => if r = "Silver" then 2 else if r = "Ore" then 1 else 0,
        "s0", ["s0"]⟩ [] "Collector").2.inventory "Silver" = 2 ∧
    (buildStructure "player_2"
      ⟨"player_1", fun r => if r = "Silver" then 2 else if r = "Ore" then 1 else 0,
        "s0", ["s0"]⟩ [] "Collector").2.inventory "Ore" = 1 :=
  ⟨by decide, rfl, rfl, by decide, by decide⟩

/-- C3 (amended): build succeeds if and only if the acting Player owns the
unit, the unit's current space is in its accessible set (explored united
with the system-accessible first spaces), the structure type is in the
fixed requirement table, and the inventory holds at least the required
count of every listed resource; on success exactly the required amount of
each listed resource is decremented, unlisted resources are untouched, and
the structure is placed at the unit's current space; on every failure
(PermissionDenied, InvalidLocation, InvalidStructureType, or
InsufficientResources reporting the per-resource shortfall) the unit state
is unchanged. -/
theorem build_structure_validated_atomic (acting_player_id : String)
    (u : BuildUnitState) (bodies : List Body) (t : String) :
    ((∃ placed, (buildStructure acting_player_id u bodies t).1 = .ok placed) ↔
      (acting_player_id = u.owner_player_id ∧
        u.current_space_id ∈ u.explored_spaces ++ systemAccessibleSpaces bodies ∧
        ∃ entry, STRUCTURE_REQUIREMENTS.find? (fun p => p.1 == t) = some entry ∧
          canAfford u.inventory entry.2 = true)) ∧
    (∀ e, (buildStructure acting_player_id u bodies t).1 = .error e →
      (buildStructure acting_player_id u bodies t).2 = u) ∧
    (∀ entry, STRUCTURE_REQUIREMENTS.find? (fun p => p.1 == t) = some entry →
      (canAfford u.inventory entry.2 = true ↔
        ∀ rn ∈ entry.2, rn.2 ≤ u.inventory rn.1)) ∧
    (∀ entry, STRUCTURE_REQUIREMENTS.find? (fun p => p.1 == t) = some entry →
      acting_player_id = u.owner_player_id →
      u.current_space_id ∈ u.explored_spaces ++ systemAccessibleSpaces bodies →
      canAfford u.inventory entry.2 = true →
        buildStructure acting_player_id u bodies t =
          (.ok ⟨t, u.current_space_id⟩,
            { u with inventory := payCost u.inventory entry.2 }) ∧
        (∀ rn ∈ entry.2,
          payCost u.inventory entry.2 rn.1 = u.inventory rn.1 - rn.2) ∧
        (∀ r, r ∉ entry.2.map Prod.fst →
          payCost u.inventory entry.2 r = u.inventory r)) ∧
    (∀ entry, STRUCTURE_REQUIREMENTS.find? (fun p => p.1 == t) = some entry →
      acting_player_id = u.owner_player_id →
      u.current_space_id ∈ u.explored_spaces ++ systemAccessibleSpaces bodies →
      canAfford u.inventory entry.2 = false →
        buildStructure acting_player_id u bodies t =
          (.error (.insufficientResources (getMissingResources u.inventory entry.2)), u)) ∧
    (acting_player_id ≠ u.owner_player_id →
      buildStructure acting_player_id u bodies t = (.error .permissionDenied, u)) ∧
    (acting_player_id = u.owner_player_id →
      u.current_space_id ∉ u.explored_spaces ++ systemAccessibleSpaces bodies →
      buildStructure acting_player_id u bodies t = (.error .invalidLocation, u)) ∧
    (acting_player_id = u.owner_player_id →
      u.current_space_id ∈ u.explored_spaces ++ systemAccessibleSpaces bodies →
      STRUCTURE_REQUIREMENTS.find? (fun p => p.1 == t) = none →
      buildStructure acting_player_id u bodies t = (.error .invalidStructureType, u)) := by
  refine ⟨?_, ?_, ?_, ?_, ?_, ?_, ?_, ?_⟩
  · constructor
    · rintro ⟨placed, hok⟩
      by_cases hperm : acting_player_id = u.owner_player_id
      · by_cases hloc : u.current_space_id ∈ u.explored_spaces ++ systemAccessibleSpaces bodies
        · cases hfind : STRUCTURE_REQUIREMENTS.find? (fun p => p.1 == t) with
          | none => simp [buildStructure, hperm, hloc, hfind] at hok
          | some entry =>
            by_cases haff : canAfford u.inventory entry.2 = true
            · exact ⟨hperm, hloc, entry, rfl, haff⟩
            · rw [Bool.not_eq_true] at haff
              simp [buildStructure, hperm, hloc, hfind, haff] at hok
        · simp [buildStructure, hperm, hloc] at hok
      · simp [buildStructure, hperm] at hok
    · rintro ⟨hperm, hloc, entry, hfind, haff⟩
      exact ⟨⟨t, u.current_space_id⟩, by simp [buildStructure, hperm, hloc, hfind, haff]⟩
  · intro e he
    by_cases hperm : acting_player_id = u.owner_player_id
    · by_cases hloc : u.current_space_id ∈ u.explored_spaces ++ systemAccessibleSpaces bodies
      · cases hfind : STRUCTURE_REQUIREMENTS.find? (fun p => p.1 == t) with
        | none => simp [buildStructure, hperm, hloc, hfind]
        | some entry =>
          by_cases haff : canAfford u.inventory entry.2 = true
          · simp [buildStructure, hperm, hloc, hfind, haff] at he
          · rw [Bool.not_eq_true] at haff
            simp [buildStructure, hperm, hloc, hfind, haff]
      · simp [buildStructure, hperm, hloc]
    · simp [buildStructure, hperm]
  · intro entry hfind
    simp [canAfford, List.all_eq_true]
  · intro entry hfind hperm hloc haff
    have hnd : (entry.2.map Prod.fst).Nodup :=
      structure_requirements_keys_nodup entry (List.mem_of_find?_eq_some hfind)
    refine ⟨by simp [buildStructure, hperm, hloc, hfind, haff], ?_, ?_⟩
    · intro rn hrn
      exact payCost_eq_of_mem u.inventory entry.2 rn.1 rn.2 hnd hrn
    · intro r hr
      exact payCost_eq_of_not_mem u.inventory entry.2 r hr
  · intro entry hfind hperm hloc haff
    simp [buildStructure, hperm, hloc, hfind, haff]
  · intro hperm
    simp [buildStructure, hperm]
  · intro hperm hloc
    simp [buildStructure, hperm, hloc]
  · intro hperm hloc hfind
    simp [buildStructure, hperm, hloc, hfind]

/-- Witness for C3's amended theorem at Scenario C: the owning player, on
an accessible space, holding exactly Silver 2 and Ore 1, builds a
Collector: the build succeeds, a Collector is placed at the unit's space,
and both resources drop to 0. -/
theorem build_structure_validated_atomic_witness :
    (buildStructure "player_1"
      ⟨"player_1", fun r => if r = "Silver" then 2 else if r = "Ore" then 1 else 0,
        "s0", ["s0"]⟩ [] "Collector").1 = .ok ⟨"Collector", "s0"⟩ ∧
    (buildStructure "player_1"
      ⟨"player_1", fun r => if r = "Silver" then 2 else if r = "Ore" then 1 else 0,
        "s0", ["s0"]⟩ [] "Collector").2.inventory "Silver" = 0 ∧
    (buildStructure "player_1"
      ⟨"player_1", fun r => if r = "Silver" then 2 else if r = "Ore" then 1 else 0,
        "s0", ["s0"]⟩ [] "Collector").2.inventory "Ore" = 0 := by
  have h := (build_structure_validated_atomic "player_1"
      ⟨"player_1", fun r => if r = "Silver" then 2 else if r = "Ore" then 1 else 0,
        "s0", ["s0"]⟩ [] "Collector").2.2.2.1
      ("Collector", [("Silver", 2), ("Ore", 1)]) (by decide) rfl (by simp) (by decide)
  refine ⟨by rw [h.1], ?_, ?_⟩ <;> decide

end Relatives

namespace Relatives

/-- The configured Factory build cooldown: 3 turns (sprint doc Step 4,
"build cooldown system (3 turns)"). -/
def FACTORY_BUILD_COOLDOWN : Nat := 3

/-- A Factory's cooldown state. -/
structure Factory where
  build_cooldown : Nat
deriving DecidableEq

/-- Outcome of a Factory build request. -/
inductive BuildUnitResult where
  | built
  | buildCooldownActive
deriving DecidableEq

/-- Modelled from the spec: the backend Factory.build_unit is not in src
(only the sprint checklist and the cooldown display are).  Per the spec,
build_unit is rejected with BuildCooldownActive when the cooldown counter is
greater than 0, and on a successful build the cooldown resets to its
configured value of 3 turns. -/
def factory_build_unit (f : Factory) : BuildUnitResult × Factory :=
  if 0 < f.build_cooldown then
    (.buildCooldownActive, f)
  else
    (.built, { build_cooldown := FACTORY_BUILD_COOLDOWN })

/-- Modelled from the spec: the backend factory-cooldown step of
advance_time is not in src.  Per the spec each turn advancement decrements a
positive cooldown by exactly 1 until it reaches 0. -/
def factory_advance_time (f : Factory) : Factory :=
  { build_cooldown := f.build_cooldown - 1 }

/-- Behavioral states of an autonomous unit (sprint doc Step 2 plus the
terminal expired state). -/
inductive AgentState where
  | search
  | collect
  | deposit
  | returning
  | idle
  | expired
deriving DecidableEq

/-- An autonomous unit's lifespan-and-state core. -/
structure AutonomousUnit where
  lifespan : Nat
  state : AgentState
deriving DecidableEq

/-- Modelled from the spec: the backend AutonomousUnit.advance_time is not
in src (only the sprint checklist is).  Per the spec, every tick the
lifespan decrements by exactly 1 before the state logic runs; if it reaches
0 the state is forced to expired that same tick, overriding any other
transition; expired is terminal, so an expired unit ticks as a no-op.  The
per-state transition logic is abstracted as the stateLogic argument. -/
def agent_tick (stateLogic : AutonomousUnit → AgentState) (a : AutonomousUnit) :
    AutonomousUnit :=
  if a.state = .expired then a
  else
    let remaining := a.lifespan - 1
    if remaining = 0 then
      { lifespan := remaining, state := .expired }
    else
      { lifespan := remaining,
        state := stateLogic { lifespan := remaining, state := a.state } }

/-- Active-unit query: expired units are excluded. -/
def activeUnits (units : List AutonomousUnit) : List AutonomousUnit :=
  units.filter fun a => decide (a.state ≠ .expired)

end Relatives

namespace Relatives

/-- C7: a Factory rejects build_unit with BuildCooldownActive exactly when
its cooldown is positive; a successful build resets the cooldown to the
configured 3 turns; each advance_time decrements a positive cooldown by
exactly 1 and leaves 0 at 0; and a Factory with cooldown 2 rejects a build
but accepts it after exactly two advance_time calls. -/
theorem factory_build_cooldown_spec (f : Factory) :
    (0 < f.build_cooldown → factory_build_unit f = (.buildCooldownActive, f)) ∧
    (f.build_cooldown = 0 →
      factory_build_unit f = (.built, { build_cooldown := FACTORY_BUILD_COOLDOWN }) ∧
      FACTORY_BUILD_COOLDOWN = 3) ∧
    (0 < f.build_cooldown →
      (factory_advance_time f).build_cooldown = f.build_cooldown - 1) ∧
    (f.build_cooldown = 0 → (factory_advance_time f).build_cooldown = 0) ∧
    ((factory_build_unit ⟨2⟩).1 = .buildCooldownActive ∧
      (factory_advance_time (factory_advance_time ⟨2⟩)).build_cooldown = 0 ∧
      (factory_build_unit (factory_advance_time (factory_advance_time ⟨2⟩))).1 = .built) := by
  refine ⟨?_, ?_, ?_, ?_, by decide⟩
  · intro h
    simp [factory_build_unit, h]
  · intro h
    exact ⟨by simp [factory_build_unit, h], rfl⟩
  · intro h
    simp [factory_advance_time]
  · intro h
    simp [factory_advance_time, h]

/-- Witness for C7 at Scenario D's numbers: a Factory with cooldown 2
rejects the build, unchanged. -/
theorem factory_build_cooldown_spec_witness :
    factory_build_unit ⟨2⟩ = (.buildCooldownActive, ⟨2⟩) :=
  (factory_build_cooldown_spec ⟨2⟩).1 (by decide)

/-- C8: every tick decrements the lifespan by exactly 1 before state logic;
a unit whose lifespan reaches 0 on that tick is forced to expired that same
tick regardless of the pending state transition; expired is terminal (a
tick is a no-op on it) and expired units are absent from the active-unit
query — so a unit with lifespan 1 expires after a single tick. -/
theorem autonomous_lifespan_expiry (stateLogic : AutonomousUnit → AgentState)
    (a : AutonomousUnit) :
    (a.state ≠ .expired → (agent_tick stateLogic a).lifespan = a.lifespan - 1) ∧
    (a.state ≠ .expired → a.lifespan = 1 →
      agent_tick stateLogic a = { lifespan := 0, state := .expired }) ∧
    (a.state = .expired → agent_tick stateLogic a = a) ∧
    (∀ units : List AutonomousUnit, a.state = .expired → a ∉ activeUnits units) := by
  refine ⟨?_, ?_, ?_, ?_⟩
  · intro h
    by_cases hz : a.lifespan - 1 = 0 <;> simp [agent_tick, h, hz]
  · intro h h1
    simp [agent_tick, h, h1]
  · intro h
    simp [agent_tick, h]
  · intro units h
    simp [activeUnits, List.mem_filter, h]

/-- Witness for C8 at Scenario E's numbers: a searching unit with lifespan 1
ticks once (under an arbitrary concrete state logic) and becomes expired
with lifespan 0, and an expired unit is absent from a concrete active-unit
query. -/
theorem autonomous_lifespan_expiry_witness :
    agent_tick (fun _ => .search) ⟨1, .search⟩ = { lifespan := 0, state := .expired } ∧
    (⟨0, .expired⟩ : AutonomousUnit) ∉ activeUnits [⟨0, .expired⟩, ⟨5, .search⟩] :=
  ⟨(autonomous_lifespan_expiry (fun _ => .search) ⟨1, .search⟩).2.1 (by decide) rfl,
   (autonomous_lifespan_expiry (fun _ => .search) ⟨0, .expired⟩).2.2.2
     [⟨0, .expired⟩, ⟨5, .search⟩] rfl⟩

end Relatives

namespace Relatives

/-- Available-for-deposit resources from `ResourceDepositDialog.jsx`: the
unit's inventory filtered to non-fuel resources with a positive amount;
anything else reads as 0 (`availableResources[selectedResource] || 0`). -/
def availableResources (inventory : String → Nat) (resource : String) : Nat :=
  if resource ≠ "fuel" ∧ 0 < inventory resource then inventory resource else 0

/-- `handleAmountChange` from `ResourceDepositDialog.jsx`:
`Math.min(Math.max(0, value), maxAmount)`. -/
def clampDepositAmount (value : Int) (maxAmount : Int) : Int :=
  min (max 0 value) maxAmount

/-- Outcome of `handleDeposit`'s client-side guards. -/
inductive DepositOutcome where
  | invalidSelection
  | notEnough
  | submit (resource : String) (quantity : Int)
deriving DecidableEq

/-- `handleDeposit` from `ResourceDepositDialog.jsx`: reject when no
resource is selected or the amount is not positive; reject when the amount
exceeds the available amount of the selected resource; otherwise submit the
deposit request. -/
def handleDeposit (selectedResource : Option String) (depositAmount : Int)
    (inventory : String → Nat) : DepositOutcome :=
  match selectedResource with
  | none => .invalidSelection
  | some res =>
    if depositAmount ≤ 0 then .invalidSelection
    else if depositAmount > (availableResources inventory res : Int) then .notEnough
    else .submit res depositAmount

/-- The deposit button's disabled predicate from `ResourceDepositDialog.jsx`:
`loading || !selectedResource || depositAmount <= 0`. -/
def depositButtonDisabled (loading : Bool) (selectedResource : Option String)
    (depositAmount : Int) : Bool :=
  loading || selectedResource.isNone || decide (depositAmount ≤ 0)

end Relatives

namespace Relatives

/-- C10: the quantity input is clamped to [0, available]; the deposit button
is disabled whenever the quantity is 0 or less or no resource is selected;
and every submitted deposit satisfies 0 < quantity ≤ the unit's current
count of the selected resource. -/
theorem deposit_quantity_bounded (inventory : String → Nat) :
    (∀ (value maxAmount : Int), 0 ≤ maxAmount →
      0 ≤ clampDepositAmount value maxAmount ∧
        clampDepositAmount value maxAmount ≤ maxAmount) ∧
    (∀ (loading : Bool) (sel : Option String) (amt : Int),
      amt ≤ 0 ∨ sel = none → depositButtonDisabled loading sel amt = true) ∧
    (∀ (sel : Option String) (amt : Int) (res : String) (q : Int),
      handleDeposit sel amt inventory = .submit res q →
        sel = some res ∧ 0 < q ∧ q ≤ (availableResources inventory res : Int) ∧
          q ≤ (inventory res : Int)) := by
  refine ⟨?_, ?_, ?_⟩
  · intro value maxAmount h
    constructor
    · exact le_min (le_max_left 0 value) h
    · exact min_le_right _ _
  · intro loading sel amt h
    rcases h with h | h
    · simp [depositButtonDisabled, h]
    · simp [depositButtonDisabled, h]
  · intro sel amt res q h
    match sel with
    | none => simp [handleDeposit] at h
    | some r =>
      by_cases h0 : amt ≤ 0
      · simp [handleDeposit, h0] at h
      · by_cases h1 : amt > (availableResources inventory r : Int)
        · simp [handleDeposit, h0, h1] at h
        · simp [handleDeposit, h0, h1] at h
          have havail : (availableResources inventory r : Int) ≤ (inventory r : Int) := by
            by_cases hcase : r ≠ "fuel" ∧ 0 < inventory r
            · simp [availableResources, hcase]
            · simp [availableResources, hcase]
          rcases h with ⟨hres, hq⟩
          subst hres
          subst hq
          exact ⟨rfl, by omega, by omega, by omega⟩

/-- Witness for C10: a concrete submitted deposit (3 Silver out of 5 held)
satisfies the bounds. -/
theorem deposit_quantity_bounded_witness :
    some "Silver" = some "Silver" ∧ (0 : Int) < 3 ∧
      (3 : Int) ≤ (availableResources (fun r => if r = "Silver" then 5 else 0) "Silver" : Int) ∧
      (3 : Int) ≤ ((fun r : String => if r = "Silver" then 5 else 0) "Silver" : Int) :=
  (deposit_quantity_bounded (fun r => if r = "Silver" then 5 else 0)).2.2
    (some "Silver") 3 "Silver" 3 (by decide)

end Relatives

namespace Relatives

/-- A Space-Port destination entry of the movement-options payload, as
consumed by `LongDistanceMove.jsx`. -/
structure SpacePortDest where
  space_id : String
  space_name : String
  body_name : String
  fuel_cost : Nat
deriving DecidableEq

/-- An explored-space entry of a reachable body in the payload. -/
structure ExploredSpaceEntry where
  space_id : String
  name : String
deriving DecidableEq

/-- A reachable body of the payload: name and explored spaces. -/
structure ReachableBody where
  name : String
  explored_spaces : List ExploredSpaceEntry
deriving DecidableEq

/-- A unified destination card built by `getAllDestinations`. -/
structure Destination where
  space_id : String
  name : String
  display_name : String
  body_name : String
  cost : Nat
  travel_type : String
  icon : String
deriving DecidableEq

/-- The sort comparator of `getAllDestinations`:
`(a, b) => a.cost - b.cost || a.name.localeCompare(b.name)`, i.e. ascending
cost with ties broken by name (string order standing in for locale
comparison). -/
def destLe (a b : Destination) : Bool :=
  decide (a.cost < b.cost) || (a.cost == b.cost && decide (a.name ≤ b.name))

/-- The destination card pushed for a Space-Port route. -/
def portDestOf (d : SpacePortDest) : Destination :=
  { space_id := d.space_id
    name := d.space_name ++ " (" ++ d.body_name ++ ")"
    display_name := d.space_name
    body_name := d.body_name
    cost := d.fuel_cost
    travel_type := "Space Port"
    icon := "🚀" }

/-- The destination card pushed for a plain inter-body route. -/
def interBodyDest (inter_body_cost : Nat) (bodyName : String)
    (space : ExploredSpaceEntry) : Destination :=
  { space_id := space.space_id
    name := space.name ++ " (" ++ bodyName ++ ")"
    display_name := space.name
    body_name := bodyName
    cost := inter_body_cost
    travel_type := "Inter-body"
    icon := "🌍" }

/-- One step of the inter-body loop of `getAllDestinations`: push the
inter-body card only if no pushed destination already has this space id
(`const hasSpacePortRoute = destinations.some(dest => dest.space_id ===
space.space_id); if (!hasSpacePortRoute) destinations.push(...)`). -/
def interBodyStep (inter_body_cost : Nat) (bodyName : String)
    (dests : List Destination) (space : ExploredSpaceEntry) : List Destination :=
  if dests.any fun dest => dest.space_id == space.space_id then dests
  else dests ++ [interBodyDest inter_body_cost bodyName space]

/-- The per-body loop of `getAllDestinations`. -/
def addBodyDests (inter_body_cost : Nat) (dests : List Destination)
    (body : ReachableBody) : List Destination :=
  body.explored_spaces.foldl (interBodyStep inter_body_cost body.name) dests

/-- `getAllDestinations` from `LongDistanceMove.jsx`: Space-Port cards
first, then inter-body cards for explored spaces of reachable bodies that
do not already have an entry, finally sorted by ascending cost with ties
broken by name. -/
def getAllDestinations (space_port_destinations : List SpacePortDest)
    (reachable_bodies : List ReachableBody) (inter_body_cost : Nat) : List Destination :=
  (reachable_bodies.foldl (addBodyDests inter_body_cost)
    (space_port_destinations.map portDestOf)).mergeSort destLe

/-- Invariant of the growing destination list: space ids are distinct, all
Space-Port ids are present, and inter-body cards never reuse a Space-Port
id. -/
def DestListOk (portIds : List String) (dests : List Destination) : Prop :=
  (dests.map fun d => d.space_id).Nodup ∧
  (∀ pid ∈ portIds, pid ∈ dests.map fun d => d.space_id) ∧
  (∀ d ∈ dests, d.travel_type = "Inter-body" → d.space_id ∉ portIds)

theorem mem_interBodyStep_of_mem (inter_body_cost : Nat) (bodyName : String)
    (dests : List Destination) (space : ExploredSpaceEntry) (x : Destination)
    (h : x ∈ dests) : x ∈ interBodyStep inter_body_cost bodyName dests space := by
  unfold interBodyStep
  split
  · exact h
  · exact List.mem_append_left _ h

theorem destListOk_interBodyStep (portIds : List String) (inter_body_cost : Nat)
    (bodyName : String) (dests : List Destination) (space : ExploredSpaceEntry)
    (h : DestListOk portIds dests) :
    DestListOk portIds (interBodyStep inter_body_cost bodyName dests space) := by
  unfold interBodyStep
  cases hany : dests.any fun dest => dest.space_id == space.space_id with
  | true => simpa [hany] using h
  | false =>
    have hnotin : space.space_id ∉ dests.map fun d => d.space_id := by
      intro hmem
      rcases List.mem_map.mp hmem with ⟨d, hd, hid⟩
      have := List.any_eq_false.mp hany d hd
      simp [hid] at this
    rw [if_neg (by simp [hany])]
    refine ⟨?_, ?_, ?_⟩
    · have hforall : ∀ x ∈ dests, ¬x.space_id = space.space_id := by
        intro x hx hxe
        exact hnotin (List.mem_map.mpr ⟨x, hx, hxe⟩)
      simpa [List.nodup_append, interBodyDest] using ⟨h.1, hforall⟩
    · intro pid hpid
      simpa [List.map_append] using Or.inl (h.2.1 pid hpid)
    · intro d hd htype
      rcases List.mem_append.mp hd with hold | hnew
      · exact h.2.2 d hold htype
      · have hdeq : d = interBodyDest inter_body_cost bodyName space := by
          simpa using hnew
        intro hpid
        have : space.space_id ∈ dests.map fun d => d.space_id := by
          have := h.2.1 d.space_id (by simpa [hdeq, interBodyDest] using hpid)
          simpa [hdeq, interBodyDest] using this
        exact hnotin this

theorem destListOk_addBodyDests (portIds : List String) (inter_body_cost : Nat)
    (dests : List Destination) (body : ReachableBody)
    (h : DestListOk portIds dests) :
    DestListOk portIds (addBodyDests inter_body_cost dests body) := by
  unfold addBodyDests
  generalize body.explored_spaces = sps
  induction sps generalizing dests with
  | nil => exact h
  | cons sp rest ih =>
    rw [List.foldl_cons]
    exact ih _ (destListOk_interBodyStep portIds inter_body_cost body.name dests sp h)

theorem mem_addBodyDests_of_mem (inter_body_cost : Nat) (dests : List Destination)
    (body : ReachableBody) (x : Destination) (h : x ∈ dests) :
    x ∈ addBodyDests inter_body_cost dests body := by
  unfold addBodyDests
  generalize body.explored_spaces = sps
  induction sps generalizing dests with
  | nil => exact h
  | cons sp rest ih =>
    rw [List.foldl_cons]
    exact ih _ (mem_interBodyStep_of_mem inter_body_cost body.name dests sp x h)

theorem destListOk_foldl_bodies (portIds : List String) (inter_body_cost : Nat)
    (dests : List Destination) (bodies : List ReachableBody)
    (h : DestListOk portIds dests) :
    DestListOk portIds (bodies.foldl (addBodyDests inter_body_cost) dests) := by
  induction bodies generalizing dests with
  | nil => exact h
  | cons b rest ih =>
    rw [List.foldl_cons]
    exact ih _ (destListOk_addBodyDests portIds inter_body_cost dests b h)

theorem mem_foldl_bodies_of_mem (inter_body_cost : Nat) (dests : List Destination)
    (bodies : List ReachableBody) (x : Destination) (h : x ∈ dests) :
    x ∈ bodies.foldl (addBodyDests inter_body_cost) dests := by
  induction bodies generalizing dests with
  | nil => exact h
  | cons b rest ih =>
    rw [List.foldl_cons]
    exact ih _ (mem_addBodyDests_of_mem inter_body_cost dests b x h)

theorem portDest_ids (space_port_destinations : List SpacePortDest) :
    ((space_port_destinations.map portDestOf).map fun d => d.space_id) =
      space_port_destinations.map fun d => d.space_id := by
  simp [List.map_map]
  exact fun a ha => rfl

theorem destLe_iff (a b : Destination) :
    destLe a b = true ↔ (a.cost < b.cost ∨ (a.cost = b.cost ∧ a.name ≤ b.name)) := by
  simp [destLe]

theorem destLe_trans (a b c : Destination) (hab : destLe a b = true)
    (hbc : destLe b c = true) : destLe a c = true := by
  rw [destLe_iff] at hab hbc ⊢
  rcases hab with h1 | ⟨h1, h1'⟩ <;> rcases hbc with h2 | ⟨h2, h2'⟩
  · exact Or.inl (by omega)
  · exact Or.inl (by omega)
  · exact Or.inl (by omega)
  · exact Or.inr ⟨by omega, le_trans h1' h2'⟩

theorem destLe_total (a b : Destination) : (destLe a b || destLe b a) = true := by
  rw [Bool.or_eq_true, destLe_iff, destLe_iff]
  rcases Nat.lt_trichotomy a.cost b.cost with h | h | h
  · exact Or.inl (Or.inl h)
  · rcases le_total a.name b.name with hn | hn
    · exact Or.inl (Or.inr ⟨h, hn⟩)
    · exact Or.inr (Or.inr ⟨h.symm, hn⟩)
  · exact Or.inr (Or.inl h)

end Relatives

namespace Relatives

/-- C9: in the long-distance destination list, space ids are pairwise
distinct (given distinct ids in the Space-Port payload); every inter-body
entry is for a space with no Space-Port route, so wherever both routes
exist only the Space-Port entry (whose card carries the port's fuel cost
and type) survives; every Space-Port payload entry is present as a
Space-Port card; and the final list is sorted by ascending fuel cost with
ties broken by name. -/
theorem long_distance_destination_list (space_port_destinations : List SpacePortDest)
    (reachable_bodies : List ReachableBody) (inter_body_cost : Nat) :
    ((space_port_destinations.map fun d => d.space_id).Nodup →
      ((getAllDestinations space_port_destinations reachable_bodies inter_body_cost).map
        fun d => d.space_id).Nodup ∧
      (∀ d ∈ getAllDestinations space_port_destinations reachable_bodies inter_body_cost,
        d.travel_type = "Inter-body" →
          d.space_id ∉ space_port_destinations.map fun d => d.space_id)) ∧
    (∀ p ∈ space_port_destinations,
      portDestOf p ∈ getAllDestinations space_port_destinations reachable_bodies
        inter_body_cost) ∧
    List.Pairwise (fun a b => a.cost < b.cost ∨ (a.cost = b.cost ∧ a.name ≤ b.name))
      (getAllDestinations space_port_destinations reachable_bodies inter_body_cost) := by
  refine ⟨?_, ?_, ?_⟩
  · intro hnd
    have hbase : DestListOk (space_port_destinations.map fun d => d.space_id)
        (space_port_destinations.map portDestOf) := by
      refine ⟨by rw [portDest_ids]; exact hnd, ?_, ?_⟩
      · intro pid hpid
        rw [portDest_ids]
        exact hpid
      · intro d hd htype
        rcases List.mem_map.mp hd with ⟨p, hp, hpd⟩
        rw [← hpd] at htype
        simp [portDestOf] at htype
    have hfold := destListOk_foldl_bodies _ inter_body_cost _ reachable_bodies hbase
    constructor
    · have hperm : ((getAllDestinations space_port_destinations reachable_bodies
          inter_body_cost).map fun d => d.space_id).Perm
          ((reachable_bodies.foldl (addBodyDests inter_body_cost)
            (space_port_destinations.map portDestOf)).map fun d => d.space_id) :=
        (List.mergeSort_perm _ destLe).map _
      exact hperm.nodup_iff.mpr hfold.1
    · intro d hd htype
      have hd' : d ∈ reachable_bodies.foldl (addBodyDests inter_body_cost)
          (space_port_destinations.map portDestOf) :=
        List.mem_mergeSort.mp hd
      exact hfold.2.2 d hd' htype
  · intro p hp
    rw [getAllDestinations, List.mem_mergeSort]
    exact mem_foldl_bodies_of_mem inter_body_cost _ reachable_bodies _
      (List.mem_map_of_mem portDestOf hp)
  · have hs := List.sorted_mergeSort destLe_trans destLe_total
      (reachable_bodies.foldl (addBodyDests inter_body_cost)
        (space_port_destinations.map portDestOf))
    exact hs.imp fun hab => (destLe_iff _ _).mp hab

/-- Witness for C9: with one Space-Port destination and one reachable body,
the resulting list has pairwise-distinct space ids. -/
theorem long_distance_destination_list_witness :
    ((getAllDestinations [⟨"s1", "Alpha", "BodyX", 2⟩]
        [⟨"BodyX", [⟨"s1", "Alpha"⟩, ⟨"s2", "Beta"⟩]⟩] 5).map fun d => d.space_id).Nodup :=
  ((long_distance_destination_list [⟨"s1", "Alpha", "BodyX", 2⟩]
      [⟨"BodyX", [⟨"s1", "Alpha"⟩, ⟨"s2", "Beta"⟩]⟩] 5).1 (by decide)).1

end Relatives
